import Mathlib

/-
Verification of the session/token-refresh and event-stream subsystem of the
simplisafe-python client library.

The definitions below are a shallow embedding of the code in
src/simplipy/api.py, src/simplipy/websocket.py, src/simplipy/system/__init__.py
and src/simplipy/system/v3.py.  The HTTP layer is modelled by an oracle
`srv : Nat -> Resp` giving the response to the i-th outbound HTTP attempt of a
run; cooperative time is a counter that advances at every HTTP suspension
point.  The recursive retry logic of `API._request` is interpreted with an
explicit fuel parameter; running out of fuel is reported as a distinguished
`fuelOut` outcome, never silently converted into a result.
-/

namespace Simplipy

/-- Header mappings are association lists with last-write-wins update,
mirroring a Python dict holding the request headers. -/
abbrev Headers := List (String × String)

/-- Assignment `headers[k] = v` on a Python dict: replace the entry if the key
is present, append it otherwise. -/
def setHeader (hs : Headers) (k v : String) : Headers :=
  if hs.any (fun p => p.1 = k) then
    hs.map (fun p => if p.1 = k then (k, v) else p)
  else hs ++ [(k, v)]

/-- Lookup `headers.get(k)` on the header mapping. -/
def getHeader (hs : Headers) (k : String) : Option String :=
  (hs.find? (fun p => p.1 = k)).map Prod.snd

/-- Response bodies in the shapes the client actually parses: the token
endpoint body, the authCheck body, and a generic JSON mapping. -/
inductive Body where
  | token (accessTok refreshTok : String) (expiresIn : Int)
  | auth (userId : Int)
  | dict (entries : List (String × String))
  deriving DecidableEq, Repr

/-- One HTTP response: either a 2xx with a parsed body, or a ClientError whose
text carries the HTTP status (`resp.raise_for_status()` in the source). -/
inductive Resp where
  | ok (b : Body)
  | err (status : Nat)
  deriving DecidableEq, Repr

/-- Errors surfaced by the executor: the taxonomy of simplipy/errors.py used
by api.py, plus `keyError` for a Python KeyError escaping `_authenticate` when
a 2xx body lacks the parsed fields. -/
inductive ApiError where
  | invalidCredentials
  | requestError
  | keyError
  deriving DecidableEq, Repr

/-- Observable events of a run.  An `http` event records the endpoint, the
Authorization header sent, and whether the refresh-in-progress flag was set at
that suspension point.  `refreshStart`/`refreshDone` bracket
`API.refresh_access_token`; the ws events come from the event-stream client. -/
inductive Ev where
  | http (endpoint : String) (authz : Option String) (refreshing : Bool)
  | refreshStart
  | refreshDone
  | wsDisconnect
  | wsConnect (url : String)
  deriving DecidableEq, Repr

/-- State of the event-stream client owned by the API object: whether a client
object is live, whether it is connected, and the token/user it was wired with. -/
structure WsState where
  live : Bool := false
  connected : Bool := false
  accessToken : String := ""
  userId : Int := 0
  deriving DecidableEq, Repr

/-- The mutable state of an `API` object (src/simplipy/api.py lines 40-50),
extended with the run instrumentation: the current time, the index of the next
HTTP attempt, and the event trace. -/
structure ApiState where
  accessToken : String := ""
  accessTokenExpire : Option Int := none
  activelyRefreshing : Bool := false
  refreshToken : String := ""
  email : Option String := none
  userId : Option Int := none
  ws : WsState := {}
  now : Int := 0
  attempts : Nat := 0
  trace : List Ev := []
  deriving DecidableEq, Repr

def API_URL_HOSTNAME : String := "api.simplisafe.com"

def DEFAULT_USER_AGENT : String := "SimpliSafe/2105 CFNetwork/902.2 Darwin/17.7.0"

/-- Python truthiness of `self.user_id` (`None` and `0` are falsy). -/
def uidTruthy : Option Int → Bool
  | none => false
  | some n => decide (n ≠ 0)

/-- The guard of the expiry-triggered refresh at the top of `API._request`
(src/simplipy/api.py lines 153-157): an expiry is stored, it is not in the
future, and no refresh is marked in progress. -/
def refreshDue (st : ApiState) : Bool :=
  match st.accessTokenExpire with
  | none => false
  | some e => decide (e ≤ st.now) && !st.activelyRefreshing

/-- Grant payloads handed to `API._authenticate`. -/
inductive Grant where
  | password (username pw : String)
  | refreshGrant (username : Option String) (refreshTok : String)
  deriving DecidableEq, Repr

/-- Result of a run: a value, a raised error, or fuel exhaustion (the model
marker for a run whose recursion exceeds the given budget). -/
inductive Outcome (α : Type) where
  | ok (a : α)
  | err (e : ApiError)
  | fuelOut
  deriving DecidableEq, Repr

/-- Percent-encoding of one character as in `urllib.parse.quote_plus`
(used by `urlencode` in `Websocket.async_connect`): ASCII alphanumerics and
`_.-~` pass through, a space becomes `+`, everything else is `%XX`. -/
def quotePlusChar (c : Char) : String :=
  if c.isAlphanum || c = '_' || c = '.' || c = '-' || c = '~' then
    String.singleton c
  else if c = ' ' then "+"
  else
    let n := c.toNat
    let hexDigit : Nat → Char := fun d => if d < 10 then Char.ofNat (48 + d) else Char.ofNat (55 + d)
    String.mk ['%', hexDigit (n / 16 % 16), hexDigit (n % 16)]

def quotePlus (s : String) : String :=
  String.join (s.data.map quotePlusChar)

/-- `urllib.parse.urlencode` over the given key/value pairs. -/
def urlencode (ps : List (String × String)) : String :=
  String.intercalate "&" (ps.map (fun p => quotePlus p.1 ++ "=" ++ quotePlus p.2))

def WS_URL_BASE : String := "wss://api.simplisafe.com/socket.io"

/-- The per-user namespace of the stream connection
(src/simplipy/websocket.py line 156). -/
def wsNamespace (uid : Int) : String := "/v1/user/" ++ toString uid

/-- The connection URL built by `Websocket.async_connect`
(src/simplipy/websocket.py lines 162-170): the base URL with the namespace and
the current access token urlencoded into the query string. -/
def wsConnectUrl (uid : Int) (tok : String) : String :=
  WS_URL_BASE ++ "?" ++ urlencode [("ns", wsNamespace uid), ("accessToken", tok)]

/-- Modelled from the spec: `Websocket.async_init` is invoked by
`API._authenticate` (src/simplipy/api.py line 129) but its definition is not
under src (src/simplipy/websocket.py predates it).  Per spec section 4.2 and
4.5 it wires the stream client with the new token and user id and, when a live
client is currently connected, tears the connection down and reconnects it
with the new token; the reconnect goes through `Websocket.async_connect`,
whose URL construction `wsConnectUrl` is taken from the source. -/
def wsAsyncInit (tok : String) (uid : Int) (st : ApiState) : ApiState :=
  if st.ws.connected then
    { st with
        ws := { live := true, connected := true, accessToken := tok, userId := uid },
        trace := st.trace ++ [Ev.wsDisconnect, Ev.wsConnect (wsConnectUrl uid tok)] }
  else
    { st with ws := { live := true, connected := false, accessToken := tok, userId := uid } }

/-- Request context: the pieces of `API._request`'s signature that steer the
embedded control flow.  `hasAuthKwarg` models an explicit `auth=` keyword
argument (the Basic-auth token call), which suppresses the Bearer header and
is forwarded through the recursive retry via `**kwargs`. -/
structure ReqCtx where
  method : String
  endpoint : String
  headers : Option Headers := none
  hasAuthKwarg : Bool := false
  deriving DecidableEq, Repr

mutual

/-- Shallow embedding of `API._request` (src/simplipy/api.py lines 141-206).
Step order follows the source: the expiry-triggered refresh, then header
construction (reusing a caller-supplied mapping), one HTTP attempt, and the
except-branch classifying 401/403/other, where the 401 branch raises
invalid-credentials if a refresh is marked in flight, otherwise force-expires
the token and recurses once with the captured header mapping. -/
def requestAux (srv : Nat → Resp) : Nat → ReqCtx → ApiState → Outcome Body × ApiState
  | 0, _, st => (Outcome.fuelOut, st)
  | fuel+1, ctx, st =>
    match (if refreshDue st then
             refreshAux srv fuel st.refreshToken { st with activelyRefreshing := true }
           else (Outcome.ok (), st)) with
    | (Outcome.err e, st1) => (Outcome.err e, st1)
    | (Outcome.fuelOut, st1) => (Outcome.fuelOut, st1)
    | (Outcome.ok _, st1) =>
      let hs0 := ctx.headers.getD []
      let hs1 :=
        if ctx.hasAuthKwarg = false ∧ st1.accessToken ≠ "" then
          setHeader hs0 "Authorization" ("Bearer " ++ st1.accessToken)
        else hs0
      let hs2 := setHeader (setHeader hs1 "Host" API_URL_HOSTNAME) "User-Agent" DEFAULT_USER_AGENT
      let st2 := { st1 with
                    attempts := st1.attempts + 1,
                    now := st1.now + 1,
                    trace := st1.trace ++
                      [Ev.http ctx.endpoint (getHeader hs2 "Authorization") st1.activelyRefreshing] }
      match srv st1.attempts with
      | Resp.ok b => (Outcome.ok b, st2)
      | Resp.err status =>
        if status = 401 then
          if st2.activelyRefreshing = true then
            (Outcome.err ApiError.invalidCredentials, st2)
          else if st2.refreshToken ≠ "" then
            requestAux srv fuel { ctx with headers := some hs2 }
              { st2 with accessTokenExpire := some st2.now }
          else (Outcome.err ApiError.invalidCredentials, st2)
        else if status = 403 then
          if uidTruthy st2.userId = true then
            (Outcome.ok (Body.dict []), st2)
          else (Outcome.err ApiError.invalidCredentials, st2)
        else (Outcome.err ApiError.requestError, st2)

/-- Shallow embedding of `API.refresh_access_token` (src/simplipy/api.py lines
230-244): run `_authenticate` with a refresh grant, then clear the
in-progress flag.  On a raised error the clearing line is never reached. -/
def refreshAux (srv : Nat → Resp) : Nat → String → ApiState → Outcome Unit × ApiState
  | 0, _, st => (Outcome.fuelOut, st)
  | fuel+1, rt, st =>
    match authAux srv fuel (Grant.refreshGrant st.email rt)
            { st with trace := st.trace ++ [Ev.refreshStart] } with
    | (Outcome.ok _, st1) =>
        (Outcome.ok (), { st1 with
                            activelyRefreshing := false,
                            trace := st1.trace ++ [Ev.refreshDone] })
    | (r, st1) => (r, st1)

/-- Shallow embedding of `API._authenticate` (src/simplipy/api.py lines
107-129): POST the grant to api/token with an explicit Basic auth argument,
store the returned tokens and the expiry `now + expires_in - 60`, resolve the
user id via api/authCheck, then hand the new token to the stream client. -/
def authAux (srv : Nat → Resp) : Nat → Grant → ApiState → Outcome Unit × ApiState
  | 0, _, st => (Outcome.fuelOut, st)
  | fuel+1, _, st =>
    match requestAux srv fuel { method := "post", endpoint := "api/token", hasAuthKwarg := true } st with
    | (Outcome.ok (Body.token accessTok refreshTok expiresIn), st1) =>
        let st2 := { st1 with
                      accessToken := accessTok,
                      accessTokenExpire := some (st1.now + expiresIn - 60),
                      refreshToken := refreshTok }
        match requestAux srv fuel { method := "get", endpoint := "api/authCheck" } st2 with
        | (Outcome.ok (Body.auth uid), st3) =>
            (Outcome.ok (), wsAsyncInit st3.accessToken uid { st3 with userId := some uid })
        | (Outcome.ok _, st3) => (Outcome.err ApiError.keyError, st3)
        | (Outcome.err e, st3) => (Outcome.err e, st3)
        | (Outcome.fuelOut, st3) => (Outcome.fuelOut, st3)
    | (Outcome.ok _, st1) => (Outcome.err ApiError.keyError, st1)
    | (Outcome.err e, st1) => (Outcome.err e, st1)
    | (Outcome.fuelOut, st1) => (Outcome.fuelOut, st1)

end

/-- Public entry `API.request` for a plain data call: no caller headers and no
explicit auth argument. -/
def request (srv : Nat → Resp) (fuel : Nat) (method endpoint : String) (st : ApiState) :
    Outcome Body × ApiState :=
  requestAux srv fuel { method := method, endpoint := endpoint } st

/-- Public entry `API.refresh_access_token`. -/
def refresh_access_token (srv : Nat → Resp) (fuel : Nat) (rt : String) (st : ApiState) :
    Outcome Unit × ApiState :=
  refreshAux srv fuel rt st

/-- A server oracle replaying a fixed list of responses, with a default for
attempts past the end of the script. -/
def srvOfList (l : List Resp) (d : Resp) : Nat → Resp := fun i => l.getD i d

/-- Trace helper: is this event an HTTP attempt against the given endpoint. -/
def isHttpTo (endpoint : String) : Ev → Bool
  | Ev.http e _ _ => decide (e = endpoint)
  | _ => false

def countHttpTo (endpoint : String) (tr : List Ev) : Nat :=
  (tr.filter (isHttpTo endpoint)).length

def isRefreshStart : Ev → Bool
  | Ev.refreshStart => true
  | _ => false

def countRefreshStart (tr : List Ev) : Nat :=
  (tr.filter isRefreshStart).length

/- Websocket event records (src/simplipy/websocket.py lines 19-137). -/

def EVENT_ALARM_CANCELED : String := "alarm_canceled"
def EVENT_ALARM_TRIGGERED : String := "alarm_triggered"
def EVENT_ARMED_AWAY : String := "armed_away"
def EVENT_ARMED_AWAY_BY_KEYPAD : String := "armed_away_by_keypad"
def EVENT_ARMED_AWAY_BY_REMOTE : String := "armed_away_by_remote"
def EVENT_ARMED_HOME : String := "armed_home"
def EVENT_AUTOMATIC_TEST : String := "automatic_test"
def EVENT_AWAY_EXIT_DELAY_BY_KEYPAD : String := "away_exit_delay_by_keypad"
def EVENT_AWAY_EXIT_DELAY_BY_REMOTE : String := "away_exit_delay_by_remote"
def EVENT_CAMERA_MOTION_DETECTED : String := "camera_motion_detected"
def EVENT_CONNECTION_LOST : String := "connection_lost"
def EVENT_CONNECTION_RESTORED : String := "connection_restored"
def EVENT_DISARMED_BY_MASTER_PIN : String := "disarmed_by_master_pin"
def EVENT_DISARMED_BY_REMOTE : String := "disarmed_by_remote"
def EVENT_DOORBELL_DETECTED : String := "doorbell_detected"
def EVENT_ENTRY_DETECTED : String := "entry_detected"
def EVENT_HOME_EXIT_DELAY : String := "home_exit_delay"
def EVENT_LOCK_ERROR : String := "lock_error"
def EVENT_LOCK_LOCKED : String := "lock_locked"
def EVENT_LOCK_UNLOCKED : String := "lock_unlocked"
def EVENT_MOTION_DETECTED : String := "motion_detected"
def EVENT_POWER_OUTAGE : String := "power_outage"
def EVENT_POWER_RESTORED : String := "power_restored"
def EVENT_SENSOR_NOT_RESPONDING : String := "sensor_not_responding"
def EVENT_SENSOR_RESTORED : String := "sensor_restored"

/-- The vendor event-code table `EVENT_MAPPING`
(src/simplipy/websocket.py lines 45-79), transcribed in full. -/
def EVENT_MAPPING : List (Nat × String) :=
  [(1110, EVENT_ALARM_TRIGGERED),
   (1120, EVENT_ALARM_TRIGGERED),
   (1132, EVENT_ALARM_TRIGGERED),
   (1134, EVENT_ALARM_TRIGGERED),
   (1154, EVENT_ALARM_TRIGGERED),
   (1159, EVENT_ALARM_TRIGGERED),
   (1162, EVENT_ALARM_TRIGGERED),
   (1170, EVENT_CAMERA_MOTION_DETECTED),
   (1301, EVENT_POWER_OUTAGE),
   (1350, EVENT_CONNECTION_LOST),
   (1381, EVENT_SENSOR_NOT_RESPONDING),
   (1400, EVENT_DISARMED_BY_MASTER_PIN),
   (1406, EVENT_ALARM_CANCELED),
   (1407, EVENT_DISARMED_BY_REMOTE),
   (1409, EVENT_MOTION_DETECTED),
   (1429, EVENT_ENTRY_DETECTED),
   (1458, EVENT_DOORBELL_DETECTED),
   (1602, EVENT_AUTOMATIC_TEST),
   (3301, EVENT_POWER_RESTORED),
   (3350, EVENT_CONNECTION_RESTORED),
   (3381, EVENT_SENSOR_RESTORED),
   (3401, EVENT_ARMED_AWAY_BY_KEYPAD),
   (3407, EVENT_ARMED_AWAY_BY_REMOTE),
   (3441, EVENT_ARMED_HOME),
   (3481, EVENT_ARMED_AWAY),
   (3487, EVENT_ARMED_AWAY),
   (3491, EVENT_ARMED_HOME),
   (9401, EVENT_AWAY_EXIT_DELAY_BY_KEYPAD),
   (9407, EVENT_AWAY_EXIT_DELAY_BY_REMOTE),
   (9441, EVENT_HOME_EXIT_DELAY),
   (9700, EVENT_LOCK_UNLOCKED),
   (9701, EVENT_LOCK_LOCKED),
   (9703, EVENT_LOCK_ERROR)]

/-- The `EntityTypes` enum of src/simplipy/entity.py, as a value-to-name
table; `EntityTypes(v)` succeeds exactly on these values. -/
def entityTypeTable : List (Int × String) :=
  [(0, "remote"), (1, "keypad"), (2, "keychain"), (3, "panic_button"),
   (4, "motion"), (5, "entry"), (6, "glass_break"), (7, "carbon_monoxide"),
   (8, "smoke"), (9, "leak"), (10, "temperature"), (12, "camera"),
   (13, "siren"), (15, "doorbell"), (16, "lock"), (253, "lock_keypad"),
   (99, "unknown")]

/-- Result of constructing a `WebsocketEvent`: the derived event category,
the coerced sensor type, and how many warnings were logged along the way. -/
structure WsEventResult where
  eventType : Option String
  sensorType : Option String
  warnings : Nat
  deriving DecidableEq, Repr

/-- Shallow embedding of `WebsocketEvent.__post_init__`
(src/simplipy/websocket.py lines 98-123): a known `eventCid` is mapped through
`EVENT_MAPPING`; an unknown one logs a warning and leaves the category null.
A non-null raw sensor type is coerced through `EntityTypes`, logging a warning
and nulling the field when the value is unknown.  The function is total: no
branch raises. -/
def websocketEventPostInit (eventCid : Nat) (sensorTypeRaw : Option Int) : WsEventResult :=
  let p :=
    match EVENT_MAPPING.lookup eventCid with
    | some name => (some name, 0)
    | none => (none, 1)
  match sensorTypeRaw with
  | none => { eventType := p.1, sensorType := none, warnings := p.2 }
  | some v =>
    match entityTypeTable.lookup v with
    | some n => { eventType := p.1, sensorType := some n, warnings := p.2 }
    | none => { eventType := p.1, sensorType := none, warnings := p.2 + 1 }

/- Stream watchdog (spec section 4.4). -/

/-- Modelled from the spec: the Stream Watchdog is exercised by
tests/test_websocket.py as `simplipy.websocket.WebsocketWatchdog`, but its
definition is not under src.  Per spec sections 3 and 4.4 its state is a
timeout duration, the deadline of the single outstanding deferred-expiry
timer (if armed), the current time, and, as instrumentation, the number of
times the expiry callback has fired. -/
structure Watchdog where
  timeout : Nat
  now : Nat
  deadline : Option Nat
  fired : Nat
  deriving DecidableEq, Repr

/-- Modelled from the spec: `trigger()` cancels any outstanding
deferred-expiry timer and schedules a fresh one a full timeout in the
future. -/
def Watchdog.trigger (w : Watchdog) : Watchdog :=
  { w with deadline := some (w.now + w.timeout) }

/-- Modelled from the spec: `cancel()` stops the timer with no callback
invocation. -/
def Watchdog.cancel (w : Watchdog) : Watchdog :=
  { w with deadline := none }

/-- Modelled from the spec: one unit of time passes; when an armed timer
reaches its deadline the expiry callback fires exactly once and a new timer is
armed for one timeout later, so subsequent staleness is detected again. -/
def Watchdog.tick (w : Watchdog) : Watchdog :=
  let n := w.now + 1
  match w.deadline with
  | some d =>
      if d ≤ n then
        { w with now := n, fired := w.fired + 1, deadline := some (n + w.timeout) }
      else { w with now := n }
  | none => { w with now := n }

/-- Let the given number of time units elapse. -/
def Watchdog.wait : Watchdog → Nat → Watchdog
  | w, 0 => w
  | w, d+1 => Watchdog.wait w.tick d

/-- A rapid-succession schedule: for each listed gap, wait that long and then
call `trigger()` again. -/
def Watchdog.triggerSeq : Watchdog → List Nat → Watchdog
  | w, [] => w
  | w, g :: gs => Watchdog.triggerSeq ((w.wait g).trigger) gs

/- Alarm-system state changes (src/simplipy/system). -/

/-- The `SystemStates` enum of src/simplipy/system/__init__.py lines 116-128. -/
inductive SystemStates where
  | alarm_count
  | away
  | away_count
  | entry_delay
  | error
  | exit_delay
  | home
  | home_count
  | off
  | unknown
  deriving DecidableEq, Repr

/-- The Python `.name` of each `SystemStates` member. -/
def SystemStates.name : SystemStates → String
  | SystemStates.alarm_count => "alarm_count"
  | SystemStates.away => "away"
  | SystemStates.away_count => "away_count"
  | SystemStates.entry_delay => "entry_delay"
  | SystemStates.error => "error"
  | SystemStates.exit_delay => "exit_delay"
  | SystemStates.home => "home"
  | SystemStates.home_count => "home_count"
  | SystemStates.off => "off"
  | SystemStates.unknown => "unknown"

/-- Name-to-member lookup table backing `SystemStates[...]`. -/
def systemStatesByName : List (String × SystemStates) :=
  [("alarm_count", SystemStates.alarm_count),
   ("away", SystemStates.away),
   ("away_count", SystemStates.away_count),
   ("entry_delay", SystemStates.entry_delay),
   ("error", SystemStates.error),
   ("exit_delay", SystemStates.exit_delay),
   ("home", SystemStates.home),
   ("home_count", SystemStates.home_count),
   ("off", SystemStates.off),
   ("unknown", SystemStates.unknown)]

/-- ASCII lowercasing of one character, as Python str.lower() acts on the
ASCII state words. -/
def lowerChar (c : Char) : Char :=
  if 'A' ≤ c ∧ c ≤ 'Z' then Char.ofNat (c.toNat + 32) else c

/-- Modelled from the spec: `convert_to_underscore` lives in
simplipy/util/string.py, which is imported by src/simplipy/system/__init__.py
but absent from src.  On the all-uppercase single-word state strings the
vendor sends (fixtures use "AWAY", "HOME", "OFF"), the camel-case regex
rewrites nothing and the trailing lower() simply lowercases the word. -/
def convert_to_underscore (s : String) : String := String.mk (s.data.map lowerChar)

/-- Shallow embedding of `System._coerce_state_from_string`
(src/simplipy/system/__init__.py lines 250-257): member lookup by normalized
name, with the `unknown` sentinel (plus a logged error) as fallback. -/
def coerce_state_from_string (value : String) : SystemStates :=
  match systemStatesByName.lookup (convert_to_underscore value) with
  | some s => s
  | none => SystemStates.unknown

/-- The endpoint `SystemV3._set_state` posts to:
`ss3/subscriptions/<system_id>/state/<value.name>`. -/
def stateChangeEndpoint (systemId : Int) (value : SystemStates) : String :=
  "ss3/subscriptions/" ++ toString systemId ++ "/state/" ++ value.name

/-- Shallow embedding of `SystemV3._set_state`
(src/simplipy/system/v3.py lines 276-287) applied to the state-change call
response.  `resp` is the outcome of the POST: a raised request error, a falsy
body, or a body carrying a "state" string.  The result pairs a raised flag
with the in-memory state after the call: a raised error propagates before any
mutation, a falsy body returns early, and otherwise the state is re-coerced
from the response body. -/
def setStateV3 (resp : Except Unit (Option String)) (current : SystemStates) :
    Bool × SystemStates :=
  match resp with
  | Except.error _ => (true, current)
  | Except.ok none => (false, current)
  | Except.ok (some s) => (false, coerce_state_from_string s)

/-- Shallow embedding of `System.set_away`
(src/simplipy/system/__init__.py lines 398-400): delegate to `_set_state`
with the `away` member (which selects the posted endpoint). -/
def set_away (resp : Except Unit (Option String)) (current : SystemStates) :
    Bool × SystemStates :=
  setStateV3 resp current

/-- A server for which every refresh exchange succeeds but the data endpoint
always answers 401: in the resulting run, attempt 3k hits the data endpoint
and attempts 3k+1 and 3k+2 are the token and authCheck calls of the refresh
that the 401 triggers. -/
def always401DataSrv : Nat → Resp := fun i =>
  if i % 3 = 0 then Resp.err 401
  else if i % 3 = 1 then Resp.ok (Body.token "newtok" "newref" 3600)
  else Resp.ok (Body.auth 12345)

/-- A session state holding valid-looking tokens and a resolved user id,
with no stored expiry. -/
def sessionSt : ApiState :=
  { accessToken := "oldtok", refreshToken := "oldref", userId := some 12345 }

/-- A session state whose stored expiry is already in the past. -/
def expiredSt : ApiState :=
  { accessToken := "oldtok", accessTokenExpire := some 0, refreshToken := "oldref",
    userId := some 12345 }

/-- A server that answers the refresh exchange and then every data call
successfully. -/
def c3srv : Nat → Resp :=
  srvOfList [Resp.ok (Body.token "newtok" "newref" 3600), Resp.ok (Body.auth 7),
             Resp.ok (Body.dict [])] (Resp.err 500)

/-- An expired session state used to exercise the expiry-triggered refresh. -/
def c3st : ApiState :=
  { accessToken := "oldtok", accessTokenExpire := some 0, refreshToken := "oldref",
    userId := some 7 }

/-- C4 counterexample: a stored user id of 0 is "already set", yet a 403
response makes the executor raise invalid-credentials instead of returning the
empty mapping, because `API._request` tests `if self.user_id:` (truthiness,
which 0 fails), not presence. -/
theorem c4_counterexample :
    (({ userId := some 0 } : ApiState).userId.isSome = true)
    ∧ (request (fun _ => Resp.err 403) 1 "get" "api/alerts" { userId := some 0 }).1
        = Outcome.err ApiError.invalidCredentials := by
  constructor
  · rfl
  · decide

/-- C4 amended: every request failing with a 403 returns the empty mapping
and raises nothing when the stored user id is truthy (set and nonzero), and
raises invalid-credentials when the user id is unset or zero. -/
theorem c4_403_soft_or_invalid (a rt m ep : String) (u : Option Int) :
    (request (fun _ => Resp.err 403) 1 m ep
        { accessToken := a, refreshToken := rt, userId := u }).1
      = (if uidTruthy u = true then Outcome.ok (Body.dict [])
         else Outcome.err ApiError.invalidCredentials) := by
  cases hu : uidTruthy u <;> simp_all [request, requestAux, refreshDue]

/-- C9: a 403 with a stored user id equal to 0 raises invalid-credentials
rather than returning the empty mapping; the soft empty-mapping outcome
occurs exactly for a nonzero stored user id, because the "user id is known"
test is Python truthiness on the stored value. -/
theorem c9_403_zero_user_id (k : Int) :
    (request (fun _ => Resp.err 403) 1 "get" "users/12345/subscriptions"
        { accessToken := "token123", refreshToken := "refresh123", userId := some k }).1
      = (if k = 0 then Outcome.err ApiError.invalidCredentials
         else Outcome.ok (Body.dict [])) := by
  simp only [request, requestAux, refreshDue]
  by_cases hk : k = 0 <;> simp_all [uidTruthy]

/-- C8: when the state-change call of `set_away` fails with a request error,
the in-memory state is left unchanged and the error propagates; when the call
succeeds (the server acknowledging with its "AWAY" state body), the in-memory
state becomes `away`.  A falsy success body also leaves the state unchanged. -/
theorem c8_set_away_atomic (s : SystemStates) :
    set_away (Except.error ()) s = (true, s)
    ∧ set_away (Except.ok none) s = (false, s)
    ∧ set_away (Except.ok (some "AWAY")) s = (false, SystemStates.away) :=
  ⟨rfl, rfl, rfl⟩

/-- C6: constructing a websocket event record maps a known `eventCid` to its
documented category through `EVENT_MAPPING` with no warning; code 1400 yields
`disarmed_by_master_pin`; an unrecognized code such as 9999 yields a null
category plus exactly one logged warning, and the construction is a total
function — no branch raises.  (The raw sensor type 5 is the valid `entry`
entity, so the only possible warning comes from the event-code path.) -/
theorem c6_event_round_trip (cid : Nat) :
    ((websocketEventPostInit cid (some 5)).eventType = EVENT_MAPPING.lookup cid)
    ∧ ((websocketEventPostInit cid (some 5)).warnings
        = (if (EVENT_MAPPING.lookup cid).isSome = true then 0 else 1))
    ∧ (websocketEventPostInit 1400 (some 5)).eventType = some EVENT_DISARMED_BY_MASTER_PIN
    ∧ websocketEventPostInit 9999 (some 5)
        = { eventType := none, sensorType := some "entry", warnings := 1 } := by
  have h5 : entityTypeTable.lookup (5 : Int) = some "entry" := by decide
  refine ⟨?_, ?_, by decide, by decide⟩
  · unfold websocketEventPostInit
    cases h : EVENT_MAPPING.lookup cid <;> simp [h, h5]
  · unfold websocketEventPostInit
    cases h : EVENT_MAPPING.lookup cid <;> simp [h, h5]

set_option maxHeartbeats 1000000 in
/-- C1 counterexample: with a non-empty refresh token stored, when every
refresh exchange succeeds but the data endpoint keeps answering 401, the
executor does make a third (and further) attempts of the same call instead of
raising invalid-credentials after the second 401: the recursion guard is
cleared by each successful refresh, so within a recursion budget of 6 the
endpoint is attempted 3 times, no invalid-credentials error is raised, and the
run is still recursing when the budget ends. -/
theorem c1_counterexample :
    sessionSt.refreshToken ≠ ""
    ∧ countHttpTo "ss3/subscriptions/12345/settings/normal"
        (request always401DataSrv 6 "get" "ss3/subscriptions/12345/settings/normal"
          sessionSt).2.trace = 3
    ∧ (request always401DataSrv 6 "get" "ss3/subscriptions/12345/settings/normal"
        sessionSt).1 = Outcome.fuelOut := by
  refine ⟨by decide, ?_, ?_⟩ <;>
    simp [request, requestAux, refreshAux, authAux, refreshDue, always401DataSrv, sessionSt,
          wsAsyncInit, setHeader, getHeader, countHttpTo, isHttpTo, uidTruthy]

/-- C1 amended: on a 401 with a non-empty refresh token and no refresh marked
in flight, the executor forces the cached token to expire and retries the same
call exactly once after an interleaved refresh.  When a 401 arrives while the
refresh is marked in flight — in particular when the refresh exchange itself
answers 401 — invalid-credentials is raised and the original call is not
attempted again (scenario one: one attempt of the call).  When the interleaved
refresh succeeds and the retried call succeeds, its result is returned after
exactly two attempts (scenario two); but a 401 on the successfully-refreshed
retried call starts a further refresh-and-retry cycle rather than raising
invalid-credentials, so attempts are not capped at two
(see the counterexample). -/
theorem c1_401_single_retry (a rt t2 r2 m ep : String) (u : Int)
    (ha : a ≠ "") (hrt : rt ≠ "") (ht2 : t2 ≠ "")
    (hep1 : ep ≠ "api/token") (hep2 : ep ≠ "api/authCheck") :
    ((request (fun _ => Resp.err 401) 8 m ep
        { accessToken := a, refreshToken := rt, userId := some u }).1
      = Outcome.err ApiError.invalidCredentials
     ∧ countHttpTo ep (request (fun _ => Resp.err 401) 8 m ep
        { accessToken := a, refreshToken := rt, userId := some u }).2.trace = 1)
    ∧ ((request (srvOfList [Resp.err 401, Resp.ok (Body.token t2 r2 3600),
          Resp.ok (Body.auth u), Resp.ok (Body.dict [])] (Resp.err 500)) 8 m ep
        { accessToken := a, refreshToken := rt, userId := some u }).1
      = Outcome.ok (Body.dict [])
     ∧ countHttpTo ep (request (srvOfList [Resp.err 401, Resp.ok (Body.token t2 r2 3600),
          Resp.ok (Body.auth u), Resp.ok (Body.dict [])] (Resp.err 500)) 8 m ep
        { accessToken := a, refreshToken := rt, userId := some u }).2.trace = 2) := by
  refine ⟨⟨?_, ?_⟩, ⟨?_, ?_⟩⟩ <;>
    simp [request, requestAux, refreshAux, authAux, refreshDue, srvOfList, wsAsyncInit,
          setHeader, getHeader, countHttpTo, isHttpTo, uidTruthy,
          ha, hrt, ht2, Ne.symm hep1, Ne.symm hep2]

/-- C1 witness: the amended behaviour at concrete inputs. -/
theorem c1_401_single_retry_witness :
    ("oldtok" ≠ "" ∧ "oldref" ≠ "" ∧ "newtok" ≠ ""
      ∧ "api/sensors" ≠ "api/token" ∧ "api/sensors" ≠ "api/authCheck")
    ∧ (request (fun _ => Resp.err 401) 8 "get" "api/sensors"
        { accessToken := "oldtok", refreshToken := "oldref", userId := some 7 }).1
        = Outcome.err ApiError.invalidCredentials
    ∧ countHttpTo "api/sensors" (request (srvOfList [Resp.err 401,
          Resp.ok (Body.token "newtok" "newref" 3600), Resp.ok (Body.auth 7),
          Resp.ok (Body.dict [])] (Resp.err 500)) 8 "get" "api/sensors"
        { accessToken := "oldtok", refreshToken := "oldref", userId := some 7 }).2.trace = 2 :=
  ⟨by decide,
   (c1_401_single_retry "oldtok" "oldref" "newtok" "newref" "get" "api/sensors" 7
      (by decide) (by decide) (by decide) (by decide) (by decide)).1.1,
   (c1_401_single_retry "oldtok" "oldref" "newtok" "newref" "get" "api/sensors" 7
      (by decide) (by decide) (by decide) (by decide) (by decide)).2.2⟩

/-- C2 counterexample: when the refresh triggered by an expired token fails
(the token endpoint answers 500), the terminal outcome of the refresh is known
— a request error propagates to the caller — yet the in-progress flag is NOT
cleared: `refresh_access_token` only clears it on the line after a successful
`_authenticate`, so the claim that the flag is cleared "equally on failure" is
false on the code. -/
theorem c2_counterexample :
    (request (fun _ => Resp.err 500) 8 "get" "api/sensors" expiredSt).1
      = Outcome.err ApiError.requestError
    ∧ (request (fun _ => Resp.err 500) 8 "get" "api/sensors"
        expiredSt).2.activelyRefreshing = true := by
  refine ⟨?_, ?_⟩ <;>
    simp [request, requestAux, refreshAux, authAux, refreshDue, expiredSt,
          setHeader, getHeader, uidTruthy]

/-- C2 amended: for every refresh attempt triggered by the request executor,
the in-progress flag is set before the first suspension point inside the
attempt (the token call is recorded with the flag set), and it is cleared once
the refresh completes successfully; on a failed refresh the flag remains set —
so at most one refresh is ever logically in flight, but the flag is cleared
only on success, not on failure. -/
theorem c2_refresh_flag (rt t2 r2 m ep : String) (u : Int) (c : Nat)
    (ht2 : t2 ≠ "") (hc1 : c ≠ 401) (hc2 : c ≠ 403) :
    ((request (fun _ => Resp.err c) 8 m ep
        { accessToken := "oldtok", accessTokenExpire := some 0, refreshToken := rt,
          userId := some u }).1 = Outcome.err ApiError.requestError
     ∧ (request (fun _ => Resp.err c) 8 m ep
        { accessToken := "oldtok", accessTokenExpire := some 0, refreshToken := rt,
          userId := some u }).2.activelyRefreshing = true
     ∧ (request (fun _ => Resp.err c) 8 m ep
        { accessToken := "oldtok", accessTokenExpire := some 0, refreshToken := rt,
          userId := some u }).2.trace = [Ev.refreshStart, Ev.http "api/token" none true])
    ∧ ((request (srvOfList [Resp.ok (Body.token t2 r2 3600), Resp.ok (Body.auth u),
          Resp.ok (Body.dict [])] (Resp.err 500)) 8 m ep
        { accessToken := "oldtok", accessTokenExpire := some 0, refreshToken := rt,
          userId := some u }).1 = Outcome.ok (Body.dict [])
     ∧ (request (srvOfList [Resp.ok (Body.token t2 r2 3600), Resp.ok (Body.auth u),
          Resp.ok (Body.dict [])] (Resp.err 500)) 8 m ep
        { accessToken := "oldtok", accessTokenExpire := some 0, refreshToken := rt,
          userId := some u }).2.activelyRefreshing = false
     ∧ (request (srvOfList [Resp.ok (Body.token t2 r2 3600), Resp.ok (Body.auth u),
          Resp.ok (Body.dict [])] (Resp.err 500)) 8 m ep
        { accessToken := "oldtok", accessTokenExpire := some 0, refreshToken := rt,
          userId := some u }).2.trace
        = [Ev.refreshStart, Ev.http "api/token" none true,
           Ev.http "api/authCheck" (some ("Bearer " ++ t2)) true,
           Ev.refreshDone, Ev.http ep (some ("Bearer " ++ t2)) false]) := by
  refine ⟨⟨?_, ?_, ?_⟩, ⟨?_, ?_, ?_⟩⟩ <;>
    simp [request, requestAux, refreshAux, authAux, refreshDue, srvOfList, wsAsyncInit,
          setHeader, getHeader, uidTruthy, ht2, hc1, hc2]

/-- C2 witness: the amended flag discipline at concrete inputs. -/
theorem c2_refresh_flag_witness :
    ("newtok" ≠ "" ∧ (500 : Nat) ≠ 401 ∧ (500 : Nat) ≠ 403)
    ∧ (request (fun _ => Resp.err 500) 8 "get" "api/sensors"
        { accessToken := "oldtok", accessTokenExpire := some 0, refreshToken := "oldref",
          userId := some 7 }).2.activelyRefreshing = true
    ∧ (request (srvOfList [Resp.ok (Body.token "newtok" "newref" 3600),
          Resp.ok (Body.auth 7), Resp.ok (Body.dict [])] (Resp.err 500)) 8 "get" "api/sensors"
        { accessToken := "oldtok", accessTokenExpire := some 0, refreshToken := "oldref",
          userId := some 7 }).2.activelyRefreshing = false :=
  ⟨by decide,
   (c2_refresh_flag "oldref" "newtok" "newref" "get" "api/sensors" 7 500
      (by decide) (by decide) (by decide)).1.2.1,
   (c2_refresh_flag "oldref" "newtok" "newref" "get" "api/sensors" 7 500
      (by decide) (by decide) (by decide)).2.2.1⟩

/-- C10: on the 401-triggered retry the recursive call receives the very
header mapping captured from the failed call, but it reassigns the
Authorization entry from the then-current access token before issuing the
request; so with no explicit auth argument and a non-empty post-refresh token,
the two attempts of the data endpoint carry Bearer headers equal to the
pre-refresh and post-refresh access tokens respectively — the retry never
carries the stale token. -/
theorem c10_retry_fresh_bearer (a rt t2 r2 m ep : String) (u : Int)
    (ha : a ≠ "") (hrt : rt ≠ "") (ht2 : t2 ≠ "")
    (hep1 : ep ≠ "api/token") (hep2 : ep ≠ "api/authCheck") :
    ((request (srvOfList [Resp.err 401, Resp.ok (Body.token t2 r2 3600),
        Resp.ok (Body.auth u), Resp.ok (Body.dict [])] (Resp.err 500)) 8 m ep
      { accessToken := a, refreshToken := rt, userId := some u }).2.trace.filter
        (isHttpTo ep))
      = [Ev.http ep (some ("Bearer " ++ a)) false,
         Ev.http ep (some ("Bearer " ++ t2)) false] := by
  simp [request, requestAux, refreshAux, authAux, refreshDue, srvOfList, wsAsyncInit,
        setHeader, getHeader, isHttpTo, uidTruthy,
        ha, hrt, ht2, Ne.symm hep1, Ne.symm hep2]

/-- C10 witness: the fresh Bearer header on the retry at concrete inputs. -/
theorem c10_retry_fresh_bearer_witness :
    ("oldtok" ≠ "" ∧ "oldref" ≠ "" ∧ "newtok" ≠ ""
      ∧ "api/sensors" ≠ "api/token" ∧ "api/sensors" ≠ "api/authCheck")
    ∧ ((request (srvOfList [Resp.err 401, Resp.ok (Body.token "newtok" "newref" 3600),
        Resp.ok (Body.auth 7), Resp.ok (Body.dict [])] (Resp.err 500)) 8 "get" "api/sensors"
      { accessToken := "oldtok", refreshToken := "oldref", userId := some 7 }).2.trace.filter
        (isHttpTo "api/sensors"))
      = [Ev.http "api/sensors" (some ("Bearer " ++ "oldtok")) false,
         Ev.http "api/sensors" (some ("Bearer " ++ "newtok")) false] :=
  ⟨by decide,
   c10_retry_fresh_bearer "oldtok" "oldref" "newtok" "newref" "get" "api/sensors" 7
     (by decide) (by decide) (by decide) (by decide) (by decide)⟩

/-- C5: after a successful refresh on a session whose stream client is
connected, the client is torn down and reconnected, the reconnect URL is the
one `Websocket.async_connect` builds from the post-refresh token, and the
stream state then carries the new token; at the concrete scenario of the spec
the rebuilt URL embeds the new token value `qrstu98765` in its query string. -/
theorem c5_token_rotation (old rt t2 r2 : String) (uid : Int) (ht2 : t2 ≠ "") :
    ((refresh_access_token (srvOfList [Resp.ok (Body.token t2 r2 3600),
        Resp.ok (Body.auth uid)] (Resp.err 500)) 6 rt
      { accessToken := old, refreshToken := rt,
        ws := { live := true, connected := true, accessToken := old, userId := uid } }).1
      = Outcome.ok ())
    ∧ (refresh_access_token (srvOfList [Resp.ok (Body.token t2 r2 3600),
        Resp.ok (Body.auth uid)] (Resp.err 500)) 6 rt
      { accessToken := old, refreshToken := rt,
        ws := { live := true, connected := true, accessToken := old, userId := uid } }).2.trace
      = [Ev.refreshStart, Ev.http "api/token" none false,
         Ev.http "api/authCheck" (some ("Bearer " ++ t2)) false,
         Ev.wsDisconnect, Ev.wsConnect (wsConnectUrl uid t2), Ev.refreshDone]
    ∧ (refresh_access_token (srvOfList [Resp.ok (Body.token t2 r2 3600),
        Resp.ok (Body.auth uid)] (Resp.err 500)) 6 rt
      { accessToken := old, refreshToken := rt,
        ws := { live := true, connected := true, accessToken := old, userId := uid } }).2.ws.accessToken
      = t2
    ∧ wsConnectUrl 12345 "qrstu98765"
      = "wss://api.simplisafe.com/socket.io?ns=%2Fv1%2Fuser%2F12345&accessToken=qrstu98765" := by
  refine ⟨?_, ?_, ?_, by decide⟩ <;>
    simp [refresh_access_token, requestAux, refreshAux, authAux, refreshDue, srvOfList,
          wsAsyncInit, setHeader, getHeader, ht2]

/-- C5 witness: token rotation at the concrete scenario of the spec, rotating
`abcde12345` to `qrstu98765` for user 12345. -/
theorem c5_token_rotation_witness :
    ("qrstu98765" ≠ "")
    ∧ (refresh_access_token (srvOfList [Resp.ok (Body.token "qrstu98765" "r9" 3600),
        Resp.ok (Body.auth 12345)] (Resp.err 500)) 6 "refresh0"
      { accessToken := "abcde12345", refreshToken := "refresh0",
        ws := { live := true, connected := true, accessToken := "abcde12345",
                userId := 12345 } }).2.trace
      = [Ev.refreshStart, Ev.http "api/token" none false,
         Ev.http "api/authCheck" (some ("Bearer " ++ "qrstu98765")) false,
         Ev.wsDisconnect,
         Ev.wsConnect (wsConnectUrl 12345 "qrstu98765"),
         Ev.refreshDone] :=
  ⟨by decide,
   (c5_token_rotation "abcde12345" "refresh0" "qrstu98765" "r9" 12345 (by decide)).2.1⟩


/-- Trace monotonicity: every run of the embedded executor only appends to the
event trace of its starting state. -/
theorem trace_extends_all (srv : Nat → Resp) :
    ∀ fuel : Nat,
      (∀ ctx st, ∃ tl, (requestAux srv fuel ctx st).2.trace = st.trace ++ tl)
      ∧ (∀ rt st, ∃ tl, (refreshAux srv fuel rt st).2.trace = st.trace ++ tl)
      ∧ (∀ g st, ∃ tl, (authAux srv fuel g st).2.trace = st.trace ++ tl) := by
  intro fuel
  induction fuel with
  | zero =>
      exact ⟨fun ctx st => ⟨[], by simp [requestAux]⟩,
             fun rt st => ⟨[], by simp [refreshAux]⟩,
             fun g st => ⟨[], by simp [authAux]⟩⟩
  | succ n ih =>
      obtain ⟨ihReq, ihRef, ihAuth⟩ := ih
      have hpre : ∀ (st : ApiState) (r : Outcome Unit) (st1 : ApiState),
          (if refreshDue st then
             refreshAux srv n st.refreshToken { st with activelyRefreshing := true }
           else (Outcome.ok (), st)) = (r, st1) →
          ∃ tl, st1.trace = st.trace ++ tl := by
        intro st r st1 heq
        by_cases hdue : refreshDue st
        · rw [if_pos hdue] at heq
          obtain ⟨tl, htl⟩ := ihRef st.refreshToken { st with activelyRefreshing := true }
          rw [heq] at htl
          exact ⟨tl, by simpa using htl⟩
        · rw [if_neg hdue] at heq
          cases heq
          exact ⟨[], by simp⟩
      refine ⟨?_, ?_, ?_⟩
      · intro ctx st
        simp only [requestAux]
        split
        · rename_i e st1 heq
          exact hpre st _ st1 heq
        · rename_i st1 heq
          exact hpre st _ st1 heq
        · rename_i u st1 heq
          obtain ⟨tl1, htl1⟩ := hpre st _ st1 heq
          split
          · exact ⟨_, by simp [htl1]; try rfl⟩
          · rename_i status hstatus
            split
            · split
              · exact ⟨_, by simp [htl1]; try rfl⟩
              · split
                · obtain ⟨tl2, htl2⟩ := ihReq _ _
                  rw [htl2]
                  exact ⟨_, by simp [htl1]; try rfl⟩
                · exact ⟨_, by simp [htl1]; try rfl⟩
            · split
              · split
                · exact ⟨_, by simp [htl1]; try rfl⟩
                · exact ⟨_, by simp [htl1]; try rfl⟩
              · exact ⟨_, by simp [htl1]; try rfl⟩
      · intro rt st
        obtain ⟨tl1, htl1⟩ := ihAuth (Grant.refreshGrant st.email rt)
          { st with trace := st.trace ++ [Ev.refreshStart] }
        simp only [refreshAux]
        split
        · rename_i x u st1 heq
          rw [heq] at htl1
          simp only [ApiState.trace] at htl1
          exact ⟨_, by simp [htl1]; try rfl⟩
        · rename_i x r st1 hno heq
          rw [heq] at htl1
          simp only [ApiState.trace] at htl1
          exact ⟨_, by simp [htl1]; try rfl⟩
      · intro g st
        obtain ⟨tl1, htl1⟩ := ihReq
          { method := "post", endpoint := "api/token", hasAuthKwarg := true } st
        simp only [authAux]
        split
        · rename_i x accessTok refreshTok expiresIn st1 heq
          rw [heq] at htl1
          simp only [ApiState.trace] at htl1
          obtain ⟨tl2, htl2⟩ := ihReq { method := "get", endpoint := "api/authCheck" }
            { st1 with accessToken := accessTok,
                       accessTokenExpire := some (st1.now + expiresIn - 60),
                       refreshToken := refreshTok }
          split
          · rename_i y uid st3 heq2
            rw [heq2] at htl2
            simp only [ApiState.trace] at htl2
            unfold wsAsyncInit
            split
            · exact ⟨_, by simp [htl1, htl2]; try rfl⟩
            · exact ⟨_, by simp [htl1, htl2]; try rfl⟩
          · rename_i y b st3 hno heq2
            rw [heq2] at htl2
            simp only [ApiState.trace] at htl2
            exact ⟨_, by simp [htl1, htl2]; try rfl⟩
          · rename_i y e st3 heq2
            rw [heq2] at htl2
            simp only [ApiState.trace] at htl2
            exact ⟨_, by simp [htl1, htl2]; try rfl⟩
          · rename_i y st3 heq2
            rw [heq2] at htl2
            simp only [ApiState.trace] at htl2
            exact ⟨_, by simp [htl1, htl2]; try rfl⟩
        · rename_i x b st1 hno heq
          rw [heq] at htl1
          simp only [ApiState.trace] at htl1
          exact ⟨_, by simp [htl1]; try rfl⟩
        · rename_i x e st1 heq
          rw [heq] at htl1
          simp only [ApiState.trace] at htl1
          exact ⟨_, by simp [htl1]; try rfl⟩
        · rename_i x st1 heq
          rw [heq] at htl1
          simp only [ApiState.trace] at htl1
          exact ⟨_, by simp [htl1]; try rfl⟩


/-- A successful refresh run in closed form: with the in-progress flag set,
the token and authCheck calls answered with well-shaped bodies, and a
non-empty new token, `refresh_access_token` updates the credential fields,
rewires the stream client, and clears the flag. -/
theorem refresh_ok_run (srv : Nat → Resp) (k : Nat) (rt t2 r2 : String) (u x : Int)
    (st : ApiState)
    (hflag : st.activelyRefreshing = true)
    (h0 : srv st.attempts = Resp.ok (Body.token t2 r2 x))
    (h1 : srv (st.attempts + 1) = Resp.ok (Body.auth u))
    (ht2 : t2 ≠ "") :
    refreshAux srv (k+3) rt st
      = (Outcome.ok (),
         { st with
             accessToken := t2,
             accessTokenExpire := some (st.now + 1 + x - 60),
             activelyRefreshing := false,
             refreshToken := r2,
             userId := some u,
             ws := { live := true, connected := st.ws.connected,
                     accessToken := t2, userId := u },
             now := st.now + 1 + 1,
             attempts := st.attempts + 1 + 1,
             trace := st.trace
               ++ [Ev.refreshStart, Ev.http "api/token" none true,
                   Ev.http "api/authCheck" (some ("Bearer " ++ t2)) true]
               ++ (if st.ws.connected then
                     [Ev.wsDisconnect, Ev.wsConnect (wsConnectUrl u t2)]
                   else [])
               ++ [Ev.refreshDone] }) := by
  rcases hexp : st.accessTokenExpire with _ | e <;>
    by_cases hconn : st.ws.connected <;>
      simp [refreshAux, authAux, requestAux, refreshDue, wsAsyncInit, setHeader, getHeader,
            hflag, h0, h1, ht2, hconn, hexp]


/-- C3: whenever a stored expiry exists, the current time is at or past it,
and no refresh is marked in progress, the very next `request()` performs
exactly one refresh before issuing the originally requested HTTP call: the
run trace is the refresh block (one refreshStart, the token and authCheck
calls, the stream rewiring, one refreshDone) followed by the HTTP attempt of
the requested endpoint carrying the refreshed Bearer token, and only then
whatever the response to that attempt causes. -/
theorem c3_refresh_before_call (srv : Nat → Resp) (st : ApiState)
    (m ep t2 r2 : String) (u x e : Int) (n : Nat)
    (hexp : st.accessTokenExpire = some e) (he : e ≤ st.now)
    (hflag : st.activelyRefreshing = false)
    (htr : st.trace = []) (hatt : st.attempts = 0)
    (hsrv0 : srv 0 = Resp.ok (Body.token t2 r2 x))
    (hsrv1 : srv 1 = Resp.ok (Body.auth u))
    (ht2 : t2 ≠ "") :
    ∃ tl, (requestAux srv (n+4) { method := m, endpoint := ep } st).2.trace
      = ([Ev.refreshStart, Ev.http "api/token" none true,
          Ev.http "api/authCheck" (some ("Bearer " ++ t2)) true]
         ++ (if st.ws.connected then [Ev.wsDisconnect, Ev.wsConnect (wsConnectUrl u t2)] else [])
         ++ [Ev.refreshDone, Ev.http ep (some ("Bearer " ++ t2)) false]) ++ tl := by
  have hd : decide (e ≤ st.now) = true := decide_eq_true he
  have href := refresh_ok_run srv n st.refreshToken t2 r2 u x
      { st with activelyRefreshing := true } (by simp) (by simp [hatt, hsrv0])
      (by simp [hatt, hsrv1]) ht2
  by_cases hconn : st.ws.connected
  · rcases h2 : srv 2 with b | s
    · refine ⟨[], ?_⟩
      rw [requestAux.eq_2, href]
      simp [refreshDue, hexp, hflag, hd, htr, hatt, setHeader, getHeader, ht2, h2, hconn]
    · by_cases h401 : s = 401
      · subst h401
        by_cases hr2 : r2 = ""
        · refine ⟨[], ?_⟩
          rw [requestAux.eq_2, href]
          simp [refreshDue, hexp, hflag, hd, htr, hatt, setHeader, getHeader, ht2, h2, hconn, hr2]
        · rw [requestAux.eq_2, href]
          simp [refreshDue, hexp, hflag, hd, htr, hatt, setHeader, getHeader, ht2, h2, hconn, hr2]
          obtain ⟨tl2, htl2⟩ := (trace_extends_all srv (n+3)).1 _ _
          rw [htl2]
          exact ⟨tl2, by simp [hconn, htr]⟩
      · by_cases h403 : s = 403
        · subst h403
          by_cases hu : uidTruthy (some u) = true
          · refine ⟨[], ?_⟩
            rw [requestAux.eq_2, href]
            simp [refreshDue, hexp, hflag, hd, htr, hatt, setHeader, getHeader, ht2, h2, hconn, hu]
          · refine ⟨[], ?_⟩
            rw [requestAux.eq_2, href]
            simp [refreshDue, hexp, hflag, hd, htr, hatt, setHeader, getHeader, ht2, h2, hconn, hu]
        · refine ⟨[], ?_⟩
          rw [requestAux.eq_2, href]
          simp [refreshDue, hexp, hflag, hd, htr, hatt, setHeader, getHeader, ht2, h2, hconn,
                h401, h403]
  · rcases h2 : srv 2 with b | s
    · refine ⟨[], ?_⟩
      rw [requestAux.eq_2, href]
      simp [refreshDue, hexp, hflag, hd, htr, hatt, setHeader, getHeader, ht2, h2, hconn]
    · by_cases h401 : s = 401
      · subst h401
        by_cases hr2 : r2 = ""
        · refine ⟨[], ?_⟩
          rw [requestAux.eq_2, href]
          simp [refreshDue, hexp, hflag, hd, htr, hatt, setHeader, getHeader, ht2, h2, hconn, hr2]
        · rw [requestAux.eq_2, href]
          simp [refreshDue, hexp, hflag, hd, htr, hatt, setHeader, getHeader, ht2, h2, hconn, hr2]
          obtain ⟨tl2, htl2⟩ := (trace_extends_all srv (n+3)).1 _ _
          rw [htl2]
          exact ⟨tl2, by simp [hconn, htr]⟩
      · by_cases h403 : s = 403
        · subst h403
          by_cases hu : uidTruthy (some u) = true
          · refine ⟨[], ?_⟩
            rw [requestAux.eq_2, href]
            simp [refreshDue, hexp, hflag, hd, htr, hatt, setHeader, getHeader, ht2, h2, hconn, hu]
          · refine ⟨[], ?_⟩
            rw [requestAux.eq_2, href]
            simp [refreshDue, hexp, hflag, hd, htr, hatt, setHeader, getHeader, ht2, h2, hconn, hu]
        · refine ⟨[], ?_⟩
          rw [requestAux.eq_2, href]
          simp [refreshDue, hexp, hflag, hd, htr, hatt, setHeader, getHeader, ht2, h2, hconn,
                h401, h403]


/-- Waiting strictly below an armed deadline advances the clock with no
callback invocation and leaves the timer untouched. -/
theorem wd_wait_no_fire (g : Nat) :
    ∀ (w : Watchdog) (d : Nat), w.deadline = some d → w.now + g < d →
      w.wait g = { w with now := w.now + g } := by
  induction g with
  | zero =>
      intro w d hd h
      show w = _
      simp
  | succ gg ih =>
      intro w d hd h
      have hlt : ¬ d ≤ w.now + 1 := by omega
      have htick : w.tick = { w with now := w.now + 1 } := by
        simp [Watchdog.tick, hd, hlt]
      have hstep : w.wait (gg+1) = Watchdog.wait { w with now := w.now + 1 } gg := by
        show Watchdog.wait w.tick gg = _
        rw [htick]
      rw [hstep, ih { w with now := w.now + 1 } d hd (show w.now + 1 + gg < d by omega)]
      simp [Nat.add_assoc, Nat.add_comm, Nat.add_left_comm]

/-- Splitting a waiting period. -/
theorem wd_wait_add : ∀ (a b : Nat) (w : Watchdog), w.wait (a + b) = (w.wait a).wait b := by
  intro a
  induction a with
  | zero =>
      intro b w
      simp [Watchdog.wait, Nat.zero_add]
  | succ aa ih =>
      intro b w
      have h1 : aa + 1 + b = (aa + b) + 1 := by omega
      rw [h1]
      show Watchdog.wait w.tick (aa + b) = _
      rw [ih]
      rfl

/-- One trigger followed by a wait of at least one timeout but less than two
fires the expiry callback exactly once. -/
theorem wd_trigger_then_wait_fires_once (t d : Nat) (ht : 0 < t) (hd1 : t ≤ d) (hd2 : d < 2*t) :
    ((Watchdog.trigger { timeout := t, now := 0, deadline := none, fired := 0 }).wait d).fired
      = 1 := by
  have hw0 : Watchdog.trigger { timeout := t, now := 0, deadline := none, fired := 0 }
      = { timeout := t, now := 0, deadline := some t, fired := 0 } := by
    simp [Watchdog.trigger]
  rw [hw0]
  have hdsplit : d = (t - 1) + 1 + (d - t) := by omega
  rw [hdsplit, wd_wait_add, wd_wait_add]
  rw [wd_wait_no_fire (t - 1) { timeout := t, now := 0, deadline := some t, fired := 0 } t rfl
    (show 0 + (t - 1) < t by omega)]
  have hcond : t ≤ 0 + (t - 1) + 1 := by omega
  have htick : Watchdog.wait
      { timeout := t, now := 0 + (t - 1), deadline := some t, fired := 0 } 1
      = { timeout := t, now := 0 + (t - 1) + 1, deadline := some (0 + (t - 1) + 1 + t),
          fired := 0 + 1 } := by
    show Watchdog.tick { timeout := t, now := 0 + (t - 1), deadline := some t, fired := 0 }
        = _
    simp [Watchdog.tick, hcond]
    omega
  rw [htick]
  rw [wd_wait_no_fire (d - t)
    { timeout := t, now := 0 + (t - 1) + 1, deadline := some (0 + (t - 1) + 1 + t),
      fired := 0 + 1 }
    (0 + (t - 1) + 1 + t) rfl (show 0 + (t - 1) + 1 + (d - t) < 0 + (t - 1) + 1 + t by omega)]

/-- Any number of triggers, each arriving before the armed timeout elapses,
keeps the callback from firing. -/
theorem wd_triggerSeq_no_fire (gs : List Nat) :
    ∀ (w : Watchdog), (∀ g ∈ gs, g < w.timeout) →
      w.deadline = some (w.now + w.timeout) →
      (w.triggerSeq gs).fired = w.fired := by
  induction gs with
  | nil =>
      intro w hg hd
      simp [Watchdog.triggerSeq]
  | cons g gs ih =>
      intro w hg hd
      have hglt : g < w.timeout := hg g (by simp)
      have hwait : w.wait g = { w with now := w.now + g } :=
        wd_wait_no_fire g w (w.now + w.timeout) hd (by omega)
      have hstep : w.triggerSeq (g :: gs) = Watchdog.triggerSeq ((w.wait g).trigger) gs := rfl
      have htrig : (w.wait g).trigger
          = { w with now := w.now + g, deadline := some (w.now + g + w.timeout) } := by
        rw [hwait]
        simp [Watchdog.trigger]
      rw [hstep, htrig]
      have hfin := ih { w with now := w.now + g, deadline := some (w.now + g + w.timeout) }
        (by intro g' hmem; simpa using hg g' (List.mem_cons_of_mem _ hmem))
        (by simp)
      rw [hfin]


/-- C3 witness: the refresh-then-call ordering at concrete inputs. -/
theorem c3_refresh_before_call_witness :
    (c3st.accessTokenExpire = some 0 ∧ (0 : Int) ≤ c3st.now
      ∧ c3st.activelyRefreshing = false ∧ c3st.trace = [] ∧ c3st.attempts = 0
      ∧ c3srv 0 = Resp.ok (Body.token "newtok" "newref" 3600)
      ∧ c3srv 1 = Resp.ok (Body.auth 7) ∧ "newtok" ≠ "")
    ∧ ∃ tl, (requestAux c3srv (0+4) { method := "get", endpoint := "api/sensors" }
        c3st).2.trace
      = ([Ev.refreshStart, Ev.http "api/token" none true,
          Ev.http "api/authCheck" (some ("Bearer " ++ "newtok")) true]
         ++ (if c3st.ws.connected then
               [Ev.wsDisconnect, Ev.wsConnect (wsConnectUrl 7 "newtok")]
             else [])
         ++ [Ev.refreshDone, Ev.http "api/sensors" (some ("Bearer " ++ "newtok")) false])
        ++ tl :=
  ⟨by decide,
   c3_refresh_before_call c3srv c3st "get" "api/sensors" "newtok" "newref" 7 3600 0 0
     (by decide) (by decide) (by decide) (by decide) (by decide) (by decide) (by decide)
     (by decide)⟩

/-- C7: `trigger()` cancels the outstanding deferred-expiry timer and arms a
fresh one, so any number of triggers in rapid succession (each gap shorter
than the timeout) results in the expiry callback firing zero times, while a
single trigger followed by waiting past the timeout (but before a second
period elapses) fires the callback exactly once. -/
theorem c7_watchdog_trigger (t d : Nat) (gs : List Nat) (ht : 0 < t)
    (hgs : ∀ g ∈ gs, g < t) (hd1 : t ≤ d) (hd2 : d < 2 * t) :
    ((Watchdog.trigger { timeout := t, now := 0, deadline := none, fired := 0 }).triggerSeq
        gs).fired = 0
    ∧ ((Watchdog.trigger { timeout := t, now := 0, deadline := none, fired := 0 }).wait
        d).fired = 1 := by
  constructor
  · have h := wd_triggerSeq_no_fire gs
      (Watchdog.trigger { timeout := t, now := 0, deadline := none, fired := 0 })
      (by intro g hmem; simpa [Watchdog.trigger] using hgs g hmem)
      (by simp [Watchdog.trigger])
    simpa [Watchdog.trigger] using h
  · exact wd_trigger_then_wait_fires_once t d ht hd1 hd2

theorem c7_watchdog_trigger_witness :
    ((0 : Nat) < 3 ∧ (∀ g ∈ [1, 2, 1, 2], g < 3) ∧ (3 : Nat) ≤ 4 ∧ (4 : Nat) < 2 * 3)
    ∧ ((Watchdog.trigger { timeout := 3, now := 0, deadline := none, fired := 0 }).triggerSeq
        [1, 2, 1, 2]).fired = 0
    ∧ ((Watchdog.trigger { timeout := 3, now := 0, deadline := none, fired := 0 }).wait
        4).fired = 1 :=
  ⟨by decide,
   c7_watchdog_trigger 3 4 [1, 2, 1, 2] (by decide) (by decide) (by decide) (by decide)⟩


end Simplipy
